import Mathlib

/-!
Verification development for the CityGML MCP server's extraction pipeline.

The TypeScript/JavaScript sources are shallowly embedded in Lean:
  * JS strings become `String`, JS numbers become `ℚ` (scores) or an
    explicit `JNum` (results of `parseInt`, which may be NaN);
  * the parsed XML DOM becomes the rose tree `XNode`; xpath selections such
    as `//xs:complexType` become tag filters over the subtree (the sources
    query with the canonical `xs:` prefix, and the namespace-aware variant
    in `concepts.js` resolves to the same element sets on such documents);
  * JS `Map` objects become association lists with `Map.set` semantics
    (`mapSet`: replace in place, else append);
  * the filesystem becomes a function `String → Option XNode` (reading a
    missing file throws, which we model as `none`; `xmldom`'s
    `parseFromString` itself does not throw, so file contents are
    represented directly by their parsed trees).
-/

/-! ## JavaScript string primitives -/

/-- JS truthiness for strings (and for `getAttribute` results, where both a
missing attr and an empty value are falsy). -/
def jsTruthy (s : String) : Bool := s ≠ ""

/-- JS `a || b` for strings. -/
def jsOr (a b : String) : String := if jsTruthy a then a else b

/-- JS `String.prototype.includes`: substring containment. -/
def jsIncludes (s sub : String) : Bool :=
  s.data.tails.any (fun t => sub.data.isPrefixOf t)

/-- JS `\w` character class (ASCII letters, digits, underscore; the
sources only ever tokenize ASCII identifiers and prose). -/
def isWordChar (c : Char) : Bool := c.isAlphanum || c == '_'

/-- Maximal runs of word characters, accumulator based. -/
def wordRunsAux : List Char → List Char → List (List Char)
  | [], acc => if acc.isEmpty then [] else [acc.reverse]
  | c :: cs, acc =>
    if isWordChar c then wordRunsAux cs (c :: acc)
    else if acc.isEmpty then wordRunsAux cs []
    else acc.reverse :: wordRunsAux cs []

/-- The maximal word-character runs of a string, in order. -/
def wordRuns (s : String) : List String :=
  (wordRunsAux s.data []).map (fun l => String.mk l)

/-- JS `s.split(/\W+/).filter(w => w.length > 1)`: the word-character runs
of length at least 2 (the empty boundary fragments produced by `split`
are removed by the length filter). -/
def jsSplitWordsFiltered (s : String) : List String :=
  (wordRuns s).filter (fun w => w.length > 1)

/-- JS `parseInt` result: a number or NaN. -/
inductive JNum where
  | nan : JNum
  | int : Int → JNum
deriving DecidableEq

/-- Numeric value of a list of decimal digits. -/
def digitsVal (ds : List Char) : Nat :=
  ds.foldl (fun acc c => 10 * acc + (c.toNat - '0'.toNat)) 0

/-- JS `parseInt(s, 10)`: skip leading whitespace, optional sign, then the
maximal run of decimal digits; NaN when no digit follows.  (The sources
apply it to `minOccurs`/`maxOccurs`/cardinality segments, so the
hexadecimal auto-detection of radix-less `parseInt` can never fire.) -/
def jsParseInt (s : String) : JNum :=
  let cs := s.data.dropWhile (fun c => c.isWhitespace)
  let signed : Int × List Char :=
    match cs with
    | '-' :: r => (-1, r)
    | '+' :: r => (1, r)
    | _ => (1, cs)
  let ds := signed.2.takeWhile (fun c => c.isDigit)
  if ds.isEmpty then JNum.nan else JNum.int (signed.1 * (digitsVal ds : Int))

/-- JS `n > 1` on a `parseInt` result (false for NaN). -/
def jnumGtOne : JNum → Bool
  | JNum.nan => false
  | JNum.int n => n > 1

/-- JS `String.prototype.toLowerCase` (ASCII; the sources lowercase only
identifiers and prose). -/
def jsToLower (s : String) : String := String.mk (s.data.map Char.toLower)

/-- JS `String.prototype.startsWith`. -/
def jsStartsWith (s pre : String) : Bool := pre.data.isPrefixOf s.data

/-- JS `String.prototype.endsWith`. -/
def jsEndsWith (s suf : String) : Bool := suf.data.reverse.isPrefixOf s.data.reverse

/-- Fuelled splitter behind `jsSplitOnStr`; the fuel is an upper bound on
the number of characters still to consume, so it never runs out. -/
def jsSplitAux (sep : List Char) : Nat → List Char → List Char → List (List Char)
  | 0, rest, acc => [acc.reverse ++ rest]
  | _ + 1, [], acc => [acc.reverse]
  | fuel + 1, c :: rest, acc =>
    if sep ≠ [] ∧ sep.isPrefixOf (c :: rest) then
      acc.reverse :: jsSplitAux sep fuel ((c :: rest).drop sep.length) []
    else jsSplitAux sep fuel rest (c :: acc)

/-- JS `String.prototype.split` with a non-empty plain-string separator:
substrings between the leftmost non-overlapping separator occurrences. -/
def jsSplitOnStr (s sep : String) : List String :=
  (jsSplitAux sep.data (s.data.length + 1) s.data []).map (fun l => String.mk l)

/-- JS `s.split(sep)[1] ?? s.split(sep)[0]` pattern used throughout the
relationship extractor: `parts.length > 1 ? parts[1] : parts[0]`. -/
def splitSecondOrFirst (s sep : String) : String :=
  let parts := jsSplitOnStr s sep
  if parts.length > 1 then parts[1]?.getD "" else parts[0]?.getD ""

/-- JS `s.split(':').pop() || s` used by the concept extractor to strip a
namespace prefix (the last `:`-separated segment, falling back to the whole
string when that segment is empty). -/
def splitColonLast (s : String) : String :=
  let last := (jsSplitOnStr s ":").getLast?.getD ""
  if jsTruthy last then last else s

/-- JS `String.prototype.replace` with a plain-string pattern: replace the
first occurrence only. -/
def jsReplaceFirstAux (pat rep : List Char) : List Char → List Char
  | [] => []
  | c :: rest =>
    if pat.isPrefixOf (c :: rest) then rep ++ (c :: rest).drop pat.length
    else c :: jsReplaceFirstAux pat rep rest

/-- JS `s.replace(pat, rep)` for a non-empty plain-string `pat`. -/
def jsReplaceFirst (s pat rep : String) : String :=
  String.mk (jsReplaceFirstAux pat.data rep.data s.data)

/-! ## XML document trees

`XNode` models the DOM trees produced by `xmldom`'s `DOMParser`: element
nodes carry their prefixed tag name, attributes and children; text nodes
carry their character data. -/

inductive XNode where
  | text : String → XNode
  | el : String → List (String × String) → List XNode → XNode

/-- `nodeName` of an element (text nodes are never matched by the name
tests the sources use). -/
def XNode.tag : XNode → String
  | XNode.text _ => ""
  | XNode.el t _ _ => t

/-- DOM `getAttribute`, with the absent case collapsed to `""` (every use
in the sources treats `null` and `""` identically, via truthiness or via
comparison against non-empty literals). -/
def XNode.getAttr : XNode → String → String
  | XNode.text _, _ => ""
  | XNode.el _ attrs _, a => ((attrs.find? (fun p => p.1 == a)).map (fun p => p.2)).getD ""

mutual
/-- All element nodes of a subtree, root included, in document order. -/
def subtreeNodes : XNode → List XNode
  | XNode.text _ => []
  | XNode.el t a cs => XNode.el t a cs :: subtreeList cs
termination_by structural n => n
def subtreeList : List XNode → List XNode
  | [] => []
  | n :: ns => subtreeNodes n ++ subtreeList ns
termination_by structural l => l
end

/-- XPath `//tag` from a document or context node (descendant-or-self). -/
def selectAll (n : XNode) (t : String) : List XNode :=
  (subtreeNodes n).filter (fun m => m.tag == t)

/-- XPath `.//tag`: proper descendants only. -/
def selectBelow : XNode → String → List XNode
  | XNode.text _, _ => []
  | XNode.el _ _ cs, t => (subtreeList cs).filter (fun m => m.tag == t)

mutual
/-- Element nodes paired with their ancestor chain (nearest first), the
data `parentNode` walks in the sources traverse. -/
def nodesWithAnc : XNode → List XNode → List (XNode × List XNode)
  | XNode.text _, _ => []
  | XNode.el t a cs, anc =>
    (XNode.el t a cs, anc) :: nodesWithAncList cs (XNode.el t a cs :: anc)
termination_by structural n => n
def nodesWithAncList : List XNode → List XNode → List (XNode × List XNode)
  | [], _ => []
  | n :: ns, anc => nodesWithAnc n anc ++ nodesWithAncList ns anc
termination_by structural l => l
end

mutual
/-- DOM `textContent`: concatenated character data of the subtree. -/
def textContent : XNode → String
  | XNode.text s => s
  | XNode.el _ _ cs => textContentList cs
termination_by structural n => n
def textContentList : List XNode → String
  | [] => ""
  | n :: ns => textContent n ++ textContentList ns
termination_by structural l => l
end

/-! ## JS `Map` objects as association lists -/

/-- `Map.prototype.set`: overwrite in place when the key exists, else
append (JS maps preserve first-insertion order). -/
def mapSet {α : Type} (m : List (String × α)) (k : String) (v : α) : List (String × α) :=
  if m.any (fun p => p.1 == k) then m.map (fun p => if p.1 == k then (k, v) else p)
  else m ++ [(k, v)]

/-- Insert a batch of key/value pairs in order. -/
def mapSetFold {α : Type} (init : List (String × α)) (ps : List (String × α)) :
    List (String × α) :=
  ps.foldl (fun m p => mapSet m p.1 p.2) init

/-- Key membership test of the association-list map. -/
def keyMem {α : Type} (m : List (String × α)) (k : String) : Bool :=
  m.any (fun p => p.1 == k)

/-! ## Conceptual model data types (`src/dist/extractors/concepts.js`,
`src/unnamed/part_005`) -/

structure AttributeInfo where
  name : String
  type : String
  cardinality : String
  isNillable : Bool
  description : String
deriving DecidableEq

structure AssociationInfo where
  name : String
  target : String
  cardinality : String
  role : String
  description : String
deriving DecidableEq

structure ConstraintInfo where
  name : String
  description : String
  expression : String
deriving DecidableEq

structure ClassInfo where
  name : String
  description : String
  module : String
  isAbstract : Bool
  attributes : List AttributeInfo
  associations : List AssociationInfo
  constraints : List ConstraintInfo
  superClasses : List String
deriving DecidableEq

structure CodeValue where
  code : String
  description : String
deriving DecidableEq

structure CodelistInfo where
  name : String
  description : String
  values : List CodeValue
deriving DecidableEq

structure EnumValue where
  name : String
  description : String
deriving DecidableEq

structure EnumerationInfo where
  name : String
  description : String
  values : List EnumValue
deriving DecidableEq

structure ModuleInfo where
  name : String
  namespace' : String
  description : String
  classes : List ClassInfo
  codelists : List CodelistInfo
  enumerations : List EnumerationInfo
  dependencies : List String
deriving DecidableEq

structure ConceptualModel where
  version : String
  modules : List ModuleInfo
deriving DecidableEq

/-! ## Concept extractor (`ConceptExtractor`, `src/dist/extractors/concepts.js`) -/

/-- `extractDocumentation`: text of the first `xs:documentation` inside the
first `xs:annotation` descendant of an element. -/
def extractDocText (el : XNode) : String :=
  match (selectBelow el "xs:annotation")[0]? with
  | none => ""
  | some ann =>
    match (selectBelow ann "xs:documentation")[0]? with
    | none => ""
    | some d => textContent d

/-- `extractModuleDescription`: same lookup started from the document root
(`//xs:annotation`). -/
def extractModuleDescription (doc : XNode) : String :=
  match (selectAll doc "xs:annotation")[0]? with
  | none => ""
  | some ann =>
    match (selectBelow ann "xs:documentation")[0]? with
    | none => ""
    | some d => textContent d

/-- `extractAttributes`, element half: every `.//xs:element` of the
complexType carrying both `name` and `type`. -/
def elementAttributesOf (complexType : XNode) : List AttributeInfo :=
  (selectBelow complexType "xs:element").filterMap (fun element =>
    let name := element.getAttr "name"
    let type' := element.getAttr "type"
    if jsTruthy name && jsTruthy type' then
      let minOccurs := jsOr (element.getAttr "minOccurs") "1"
      let maxOccurs := jsOr (element.getAttr "maxOccurs") "1"
      some
        { name := name
          type := splitColonLast type'
          cardinality :=
            if maxOccurs = "unbounded" then minOccurs ++ ".." ++ "*"
            else minOccurs ++ ".." ++ maxOccurs
          isNillable := element.getAttr "nillable" == "true"
          description := extractDocText element }
    else none)

/-- `extractAttributes`, XSD-attr half: every `.//xs:attr` with
both `name` and `type`; `use="required"` gives `1..1`, else `0..1`. -/
def xsdAttributesOf (complexType : XNode) : List AttributeInfo :=
  (selectBelow complexType "xs:attribute").filterMap (fun attr =>
    let name := attr.getAttr "name"
    let type' := attr.getAttr "type"
    if jsTruthy name && jsTruthy type' then
      some
        { name := name
          type := splitColonLast type'
          cardinality := if attr.getAttr "use" == "required" then "1..1" else "0..1"
          isNillable := false
          description := extractDocText attr }
    else none)

/-- `extractAttributes complexType`. -/
def extractAttributes (complexType : XNode) : List AttributeInfo :=
  elementAttributesOf complexType ++ xsdAttributesOf complexType

/-- `extractAssociations`: every `.//xs:element[@ref]` of the complexType. -/
def extractAssociations (complexType : XNode) : List AssociationInfo :=
  ((selectBelow complexType "xs:element").filter
      (fun e => jsTruthy (e.getAttr "ref"))).filterMap (fun refElement =>
    let ref := refElement.getAttr "ref"
    if jsTruthy ref then
      let refName := splitColonLast ref
      let minOccurs := jsOr (refElement.getAttr "minOccurs") "1"
      let maxOccurs := jsOr (refElement.getAttr "maxOccurs") "1"
      some
        { name := refName
          target := refName
          cardinality :=
            if maxOccurs = "unbounded" then minOccurs ++ ".." ++ "*"
            else minOccurs ++ ".." ++ maxOccurs
          role := refName
          description := extractDocText refElement }
    else none)

/-- `extractConstraints`: documentation texts under `.//xs:annotation`
containing one of the constraint keywords. -/
def extractConstraints (complexType : XNode) : List ConstraintInfo :=
  (selectBelow complexType "xs:annotation").flatMap (fun ann =>
    (selectBelow ann "xs:documentation").filterMap (fun d =>
      let content := textContent d
      if jsIncludes content "constraint" || jsIncludes content "restriction" ||
          jsIncludes content "must" || jsIncludes content "should" then
        some { name := "Constraint", description := content, expression := "" }
      else none))

/-- `extractSuperClasses`: the (prefix-stripped) `base` of every
`.//xs:extension`. -/
def extractSuperClasses (complexType : XNode) : List String :=
  (selectBelow complexType "xs:extension").filterMap (fun ext =>
    let base := ext.getAttr "base"
    if jsTruthy base then some (splitColonLast base) else none)

/-- `extractClasses`: every named `//xs:complexType` of the module document. -/
def extractClasses (doc : XNode) (moduleName : String) : List ClassInfo :=
  (selectAll doc "xs:complexType").filterMap (fun complexType =>
    let name := complexType.getAttr "name"
    if jsTruthy name then
      some
        { name := name
          description := extractDocText complexType
          module := moduleName
          isAbstract := complexType.getAttr "abstract" == "true"
          attributes := extractAttributes complexType
          associations := extractAssociations complexType
          constraints := extractConstraints complexType
          superClasses := extractSuperClasses complexType }
    else none)

/-- `extractCodelists`: named `//xs:simpleType`s containing an
`xs:enumeration` facet whose name does not end in `EnumBase`. -/
def extractCodelists (doc : XNode) : List CodelistInfo :=
  ((selectAll doc "xs:simpleType").filter
      (fun st => !(selectBelow st "xs:enumeration").isEmpty)).filterMap (fun st =>
    let name := st.getAttr "name"
    if jsTruthy name && !(jsEndsWith name "EnumBase") then
      some
        { name := name
          description := extractDocText st
          values := (selectBelow st "xs:enumeration").map (fun v =>
            { code := jsOr (v.getAttr "value") "", description := extractDocText v }) }
    else none)

/-- `extractEnumerations`: `//xs:simpleType[.//xs:enumeration and
contains(@name, "EnumBase")]`. -/
def extractEnumerations (doc : XNode) : List EnumerationInfo :=
  ((selectAll doc "xs:simpleType").filter
      (fun st => !(selectBelow st "xs:enumeration").isEmpty &&
        jsIncludes (st.getAttr "name") "EnumBase")).filterMap (fun st =>
    let name := st.getAttr "name"
    if jsTruthy name then
      some
        { name := name
          description := extractDocText st
          values := (selectBelow st "xs:enumeration").map (fun v =>
            { name := jsOr (v.getAttr "value") "", description := extractDocText v }) }
    else none)

/-- `extractDependencies`: the basename of every import's `schemaLocation`. -/
def pathBasenameXsd (loc : String) : String :=
  let base := (jsSplitOnStr loc "/").getLast?.getD loc
  if jsEndsWith base ".xsd" then String.mk (base.data.take (base.data.length - 4)) else base

def extractDependencies (doc : XNode) : List String :=
  (selectAll doc "xs:import").filterMap (fun importEl =>
    let loc := importEl.getAttr "schemaLocation"
    if jsTruthy loc then some (pathBasenameXsd loc) else none)

/-- `path.join`, used only to form filesystem keys. -/
def pathJoin (base rel : String) : String := base ++ "/" ++ rel

/-- The filesystem visible to an extractor: path to parsed document, with
`none` for a file whose read fails. -/
def FileSystem : Type := String → Option XNode

/-- `processModuleFile`: read and parse one module file; a read failure is
caught by the caller-side `try` (here: `none`), a document without an
`xs:schema` element is skipped with a warning (also `none`). -/
def processModuleFile (xsdBasePath : String) (fs : FileSystem)
    (moduleName schemaLocation : String) : Option ModuleInfo :=
  match fs (pathJoin xsdBasePath schemaLocation) with
  | none => none
  | some doc =>
    match (selectAll doc "xs:schema")[0]? with
    | none => none
    | some schemaEl =>
      some
        { name := moduleName
          namespace' := jsOr (schemaEl.getAttr "targetNamespace") ""
          description := extractModuleDescription doc
          classes := extractClasses doc moduleName
          codelists := extractCodelists doc
          enumerations := extractEnumerations doc
          dependencies := extractDependencies doc }

/-- `extractAllModules`, with the instance state (`this.conceptModel.modules`,
which the constructor initialises to `[]` and which each
`processModuleFile` pushes onto) made explicit.  A missing root schema file
is rethrown; a failed module is skipped. -/
def extractAllModulesS (xsdBasePath : String) (modules0 : List ModuleInfo)
    (fs : FileSystem) : Except Unit ConceptualModel :=
  match fs (pathJoin xsdBasePath "CityGML.xsd") with
  | none => Except.error ()
  | some mainXsdDoc =>
    let modules := (selectAll mainXsdDoc "xs:import").foldl (fun acc importEl =>
      let schemaLocation := importEl.getAttr "schemaLocation"
      if jsTruthy schemaLocation then
        match processModuleFile xsdBasePath fs (pathBasenameXsd schemaLocation)
            schemaLocation with
        | some m => acc ++ [m]
        | none => acc
      else acc) modules0
    Except.ok { version := "3.0.0", modules := modules }

/-! ## Attribute classifier (`AttributeExtractor.analyzeCardinality`,
`src/dist/extractors/attributes.js`) -/

structure CardinalityEntry where
  className : String
  attributeName : String
deriving DecidableEq

structure MultiValuedEntry where
  className : String
  attributeName : String
  maxOccurs : String
deriving DecidableEq

structure CardinalitySummary where
  requiredAttributes : List CardinalityEntry
  optionalAttributes : List CardinalityEntry
  multiValuedAttributes : List MultiValuedEntry
deriving DecidableEq

/-- The required-bucket test: `cardinality.startsWith('1') ||
cardinality.startsWith('2') || cardinality.startsWith('3')`. -/
def isRequiredCardinality (cardinality : String) : Bool :=
  jsStartsWith cardinality "1" || jsStartsWith cardinality "2" || jsStartsWith cardinality "3"

/-- The multi-valued test: `maxOccurs === '*' || (maxOccurs &&
parseInt(maxOccurs) > 1)` where `maxOccurs = cardinality.split('..')[1]`. -/
def multiValuedMax (cardinality : String) : Option String :=
  (jsSplitOnStr cardinality "..")[1]?

def isMultiValuedCardinality (cardinality : String) : Bool :=
  match multiValuedMax cardinality with
  | none => false
  | some maxOccurs => maxOccurs == "*" || (jsTruthy maxOccurs && jnumGtOne (jsParseInt maxOccurs))

/-- All `(class, attr)` pairs of the model, in iteration order. -/
def modelClassAttributes (model : ConceptualModel) : List (ClassInfo × AttributeInfo) :=
  model.modules.flatMap (fun md =>
    md.classes.flatMap (fun classInfo =>
      classInfo.attributes.map (fun attr => (classInfo, attr))))

/-- `analyzeCardinality`: bucket every attr of every class.  The three
pushes of the source's single loop are rendered as three filters over the
same traversal order. -/
def analyzeCardinality (model : ConceptualModel) : CardinalitySummary :=
  { requiredAttributes := (modelClassAttributes model).filterMap (fun p =>
      if isRequiredCardinality p.2.cardinality then
        some { className := p.1.name, attributeName := p.2.name }
      else none)
    optionalAttributes := (modelClassAttributes model).filterMap (fun p =>
      if !isRequiredCardinality p.2.cardinality && jsStartsWith p.2.cardinality "0" then
        some { className := p.1.name, attributeName := p.2.name }
      else none)
    multiValuedAttributes := (modelClassAttributes model).filterMap (fun p =>
      match multiValuedMax p.2.cardinality with
      | none => none
      | some maxOccurs =>
        if maxOccurs == "*" || (jsTruthy maxOccurs && jnumGtOne (jsParseInt maxOccurs)) then
          some { className := p.1.name, attributeName := p.2.name, maxOccurs := maxOccurs }
        else none) }

/-! ## Object classifier (`ObjectExtractor`, `src/unnamed/part_003`) -/

/-- The module allow-list at the top of `extractAllCityObjects`'s loop. -/
def cityObjectModules : List String :=
  ["building", "bridge", "transportation", "vegetation", "waterBody",
   "landUse", "cityFurniture", "relief", "tunnel"]

/-- `geometryClassPatterns`. -/
def geometryClassPatterns : List String :=
  ["Geometry", "Solid", "Surface", "Curve", "Point", "MultiSurface",
   "CompositeSurface", "MultiCurve", "CompositeCurve", "MultiPoint"]

/-- `cityObjectNamePatterns` (local to `isCityObjectClass`). -/
def cityObjectNamePatterns : List String :=
  ["Building", "Bridge", "Road", "Railway", "Square", "Track",
   "Plant", "SolitaryVegetationObject", "PlantCover",
   "WaterBody", "WaterSurface", "LandUse", "CityFurniture",
   "ReliefFeature", "Tunnel"]

/-- `isCityObjectClass`: a superclass name contains one of the foundational
markers, or the class's own name contains one of the domain patterns. -/
def isCityObjectClass (classInfo : ClassInfo) : Bool :=
  classInfo.superClasses.any (fun superClass =>
    jsIncludes superClass "AbstractCityObject" ||
    jsIncludes superClass "AbstractFeature" ||
    jsIncludes superClass "AbstractSpace" ||
    jsIncludes superClass "AbstractOccupiedSpace") ||
  cityObjectNamePatterns.any (fun pattern => jsIncludes classInfo.name pattern)

structure GeometryProperty where
  name : String
  type : String
  cardinality : String
  role : Option String
deriving DecidableEq

structure LodAttribute where
  name : String
  level : Int
  type : String
  role : Option String
deriving DecidableEq

structure LodInfo where
  maxLod : Int
  minLod : Int
  lodAttributes : List LodAttribute
deriving DecidableEq

/-- `extractGeometryProperties`: attributes whose type, then associations
whose target, contains a geometry pattern. -/
def extractGeometryProperties (classInfo : ClassInfo) : List GeometryProperty :=
  (classInfo.attributes.filterMap (fun attr =>
    if geometryClassPatterns.any (fun pattern => jsIncludes attr.type pattern) then
      some { name := attr.name, type := attr.type,
             cardinality := attr.cardinality, role := none }
    else none)) ++
  (classInfo.associations.filterMap (fun association =>
    if geometryClassPatterns.any (fun pattern => jsIncludes association.target pattern) then
      some { name := association.name, type := association.target,
             cardinality := association.cardinality, role := some association.role }
    else none))

/-- The `/lod[0-9]/` regex test (case sensitive). -/
def lodDigitPat : List Char → Bool
  | [] => false
  | 'l' :: rest =>
    (match rest with
     | 'o' :: 'd' :: c :: _ => c.isDigit
     | _ => false) || lodDigitPat rest
  | _ :: rest => lodDigitPat rest

/-- The name test shared by `extractLodInfo` and
`extractThematicAttributes`: `name.match(/lod[0-9]/) || name.includes('LOD')`. -/
def hasLodName (name : String) : Bool :=
  lodDigitPat name.data || jsIncludes name "LOD"

/-- `extractLodLevel`: first `/lod([0-9])/i` match's digit, else −1. -/
def lodLevelSearch : List Char → Int
  | [] => -1
  | c1 :: rest =>
    match (if c1.toLower == 'l' then
            match rest with
            | c2 :: c3 :: c4 :: _ =>
              if c2.toLower == 'o' && c3.toLower == 'd' && c4.isDigit then
                some ((c4.toNat - '0'.toNat : Int))
              else none
            | _ => none
          else none) with
    | some lvl => lvl
    | none => lodLevelSearch rest

def extractLodLevel (name : String) : Int := lodLevelSearch name.data

/-- One `min/max/list` update step of `extractLodInfo`'s loop. -/
def lodStep (info : LodInfo) (name : String) (level : Int) (type' : String)
    (role : Option String) : LodInfo :=
  { maxLod := if level > info.maxLod then level else info.maxLod
    minLod :=
      if (info.minLod == 0) || (decide (level < info.minLod)) then level else info.minLod
    lodAttributes := info.lodAttributes ++ [LodAttribute.mk name level type' role] }

/-- `extractLodInfo`: fold the LOD-named attributes, then associations. -/
def extractLodInfo (classInfo : ClassInfo) : LodInfo :=
  let afterAttrs := classInfo.attributes.foldl (fun info attr =>
    if hasLodName attr.name then
      let lodLevel := extractLodLevel attr.name
      if lodLevel > -1 then lodStep info attr.name lodLevel attr.type none
      else info
    else info) { maxLod := 0, minLod := 0, lodAttributes := [] }
  classInfo.associations.foldl (fun info association =>
    if hasLodName association.name then
      let lodLevel := extractLodLevel association.name
      if lodLevel > -1 then
        lodStep info association.name lodLevel association.target (some association.role)
      else info
    else info) afterAttrs

/-- `extractThematicAttributes`: attributes that are neither geometry-typed
nor LOD-named. -/
def extractThematicAttributes (classInfo : ClassInfo) : List AttributeInfo :=
  classInfo.attributes.filter (fun attr =>
    !(geometryClassPatterns.any (fun pattern => jsIncludes attr.type pattern)) &&
    !(hasLodName attr.name))

structure CityObject where
  name : String
  module : String
  isAbstract : Bool
  superClasses : List String
  attributes : List AttributeInfo
  associations : List AssociationInfo
  geometryProperties : List GeometryProperty
  lodInfo : LodInfo
  thematicAttributes : List AttributeInfo
  children : List String
deriving DecidableEq

/-- The object literal built for one qualifying class (`children` is not
set at this point; the absent field is modelled as `[]`). -/
def mkCityObject (md : ModuleInfo) (classInfo : ClassInfo) : CityObject :=
  { name := classInfo.name
    module := md.name
    isAbstract := classInfo.isAbstract
    superClasses := classInfo.superClasses
    attributes := classInfo.attributes
    associations := classInfo.associations
    geometryProperties := extractGeometryProperties classInfo
    lodInfo := extractLodInfo classInfo
    thematicAttributes := extractThematicAttributes classInfo
    children := [] }

/-- `extractCityObjectsFromModule`: one map keyed by class name. -/
def extractCityObjectsFromModule (md : ModuleInfo) : List (String × CityObject) :=
  md.classes.foldl (fun objects classInfo =>
    if isCityObjectClass classInfo then
      mapSet objects classInfo.name (mkCityObject md classInfo)
    else objects) []

/-- `buildObjectHierarchy`: the second pass; each object's `children`
becomes the keys of the entries whose `superClasses` contain its key.  (The
source mutates `children` in place while iterating; since the iteration
reads only keys and `superClasses`, never `children`, the mutation is
equivalent to this pure map.) -/
def buildObjectHierarchy (objects : List (String × CityObject)) :
    List (String × CityObject) :=
  objects.map (fun entry =>
    (entry.1, { entry.2 with children := objects.filterMap (fun child =>
      if child.2.superClasses.contains entry.1 then some child.1 else none) }))

/-- `extractAllCityObjects`: merge the per-module maps of the allowed
modules, then link the hierarchy. -/
def extractAllCityObjects (model : ConceptualModel) : List (String × CityObject) :=
  let cityObjects := model.modules.foldl (fun cityObjects md =>
    if cityObjectModules.contains md.name then
      mapSetFold cityObjects (extractCityObjectsFromModule md)
    else cityObjects) []
  buildObjectHierarchy cityObjects

/-! ## Relationship extractor (`RelationshipExtractor`,
`src/dist/extractors/relationships.js`, `src/unnamed/part_004`) -/

inductive RelationshipType where
  | association | aggregation | composition | generalization
  | spatial | temporal | thematic
deriving DecidableEq

/-- The string value of the `RelationshipType` enum. -/
def relTypeStr : RelationshipType → String
  | RelationshipType.association => "association"
  | RelationshipType.aggregation => "aggregation"
  | RelationshipType.composition => "composition"
  | RelationshipType.generalization => "generalization"
  | RelationshipType.spatial => "spatial"
  | RelationshipType.temporal => "temporal"
  | RelationshipType.thematic => "thematic"

inductive RelationshipDirection where
  | unidirectional | bidirectional
deriving DecidableEq

inductive SpatialRelationType where
  | contains | within | touches | overlaps | disjoint
  | equals | crosses | intersects | references
deriving DecidableEq

/-- One multiplicity bound: `max` may be the literal `'*'`. -/
inductive MultMax where
  | star
  | num : JNum → MultMax
deriving DecidableEq

structure Multiplicity where
  min : JNum
  max : MultMax
deriving DecidableEq

/-- `{ min: 1, max: 1 }` etc. as written literally in the source. -/
def mult11 : Multiplicity := { min := JNum.int 1, max := MultMax.num (JNum.int 1) }
def mult01 : Multiplicity := { min := JNum.int 0, max := MultMax.num (JNum.int 1) }
def mult0star : Multiplicity := { min := JNum.int 0, max := MultMax.star }

structure RelationshipInfo where
  id : String
  name : String
  type : RelationshipType
  source : String
  target : String
  sourceRole : Option String
  targetRole : Option String
  sourceMultiplicity : Multiplicity
  targetMultiplicity : Multiplicity
  direction : RelationshipDirection
  spatialType : Option SpatialRelationType
  xsdPath : String
deriving DecidableEq

/-- The upward `parentNode` walk shared by all the `process*` helpers:
the name of the nearest ancestor that is a named `xs:complexType`, else
`''`. -/
def findSourceTypeName (anc : List XNode) : String :=
  match anc.find? (fun n => n.tag == "xs:complexType" && jsTruthy (n.getAttr "name")) with
  | some n => n.getAttr "name"
  | none => ""

/-- The same walk returning the node itself (`processXlinkReference` keeps
reading attributes from it after the loop). -/
def findSourceTypeNode (anc : List XNode) : Option XNode :=
  anc.find? (fun n => n.tag == "xs:complexType" && jsTruthy (n.getAttr "name"))

/-- The element-side multiplicity computation (`minOccurs`/`maxOccurs`,
defaulting to `'1'`, `'unbounded'` ↦ `'*'`). -/
def elementTargetMultiplicity (el : XNode) : Multiplicity :=
  let minOccurs := jsOr (el.getAttr "minOccurs") "1"
  let maxOccurs := jsOr (el.getAttr "maxOccurs") "1"
  { min := jsParseInt minOccurs
    max := if maxOccurs = "unbounded" then MultMax.star else MultMax.num (jsParseInt maxOccurs) }

/-- `processElementReference`. -/
def processElementReference (el : XNode) (elementRef : String)
    (moduleName xsdBasePath : String) (anc : List XNode) : Option RelationshipInfo :=
  let refStripped := splitSecondOrFirst elementRef ":"
  let sourceTypeName := findSourceTypeName anc
  if sourceTypeName = "" then none
  else
    let relationType :=
      if (anc[0]?.map (fun p => p.tag)) = some "xs:sequence" then
        RelationshipType.composition
      else RelationshipType.association
    some
      { id := jsToLower (relTypeStr relationType) ++ "_" ++ sourceTypeName ++ "_" ++ refStripped
        name := sourceTypeName ++ "_has_" ++ refStripped
        type := relationType
        source := sourceTypeName
        target := refStripped
        sourceRole := none
        targetRole := none
        sourceMultiplicity := mult11
        targetMultiplicity := elementTargetMultiplicity el
        direction := RelationshipDirection.unidirectional
        spatialType := none
        xsdPath := pathJoin xsdBasePath (moduleName ++ ".xsd") }

/-- `processElementWithType`. -/
def processElementWithType (el : XNode) (elementName elementType : String)
    (moduleName xsdBasePath : String) (anc : List XNode) : Option RelationshipInfo :=
  let typeParts := jsSplitOnStr elementType ":"
  let typeStripped := if typeParts.length > 1 then typeParts[1]?.getD "" else typeParts[0]?.getD ""
  if typeParts.length > 1 && typeParts[0]?.getD "" == "xs" then none
  else
    let sourceTypeName := findSourceTypeName anc
    if sourceTypeName = "" then none
    else
      let relationType :=
        if jsEndsWith elementName "Member" || jsIncludes elementName "members" then
          RelationshipType.aggregation
        else if jsEndsWith elementName "Part" || jsIncludes elementName "parts" then
          RelationshipType.composition
        else RelationshipType.association
      some
        { id := jsToLower (relTypeStr relationType) ++ "_" ++ sourceTypeName ++ "_" ++
            elementName ++ "_" ++ typeStripped
          name := sourceTypeName ++ "_" ++ elementName ++ "_" ++ typeStripped
          type := relationType
          source := sourceTypeName
          target := typeStripped
          sourceRole := some (jsToLower sourceTypeName)
          targetRole := some elementName
          sourceMultiplicity := mult11
          targetMultiplicity := elementTargetMultiplicity el
          direction := RelationshipDirection.unidirectional
          spatialType := none
          xsdPath := pathJoin xsdBasePath (moduleName ++ ".xsd") }

/-- `processXlinkReference`. -/
def processXlinkReference (attrEl : XNode) (moduleName xsdBasePath : String)
    (anc : List XNode) : Option RelationshipInfo :=
  match findSourceTypeNode anc with
  | none => none
  | some sourceNode =>
    let sourceTypeName := sourceNode.getAttr "name"
    let attributeGroup := sourceNode.getAttr "attributeGroup"
    let targetTypeName :=
      if jsTruthy attributeGroup then
        let groupStripped := splitSecondOrFirst attributeGroup ":"
        if jsEndsWith groupStripped "PropertyType" then
          jsReplaceFirst groupStripped "PropertyType" ""
        else "Unknown"
      else "Unknown"
    some
      { id := "spatial_" ++ sourceTypeName ++ "_" ++ targetTypeName
        name := sourceTypeName ++ "_spatially_related_to_" ++ targetTypeName
        type := RelationshipType.spatial
        source := sourceTypeName
        target := targetTypeName
        sourceRole := none
        targetRole := none
        sourceMultiplicity := mult11
        targetMultiplicity := mult0star
        direction := RelationshipDirection.unidirectional
        spatialType := some SpatialRelationType.references
        xsdPath := pathJoin xsdBasePath (moduleName ++ ".xsd") }

/-- `processAttributeReference` (the non-`xlink:href` branch). -/
def processAttributeReference (attrEl : XNode) (attributeRef : String)
    (moduleName xsdBasePath : String) (anc : List XNode) : Option RelationshipInfo :=
  let refParts := jsSplitOnStr attributeRef ":"
  let refStripped := if refParts.length > 1 then refParts[1]?.getD "" else refParts[0]?.getD ""
  if refParts.length > 1 && refParts[0]?.getD "" == "xlink" && refStripped == "href" then
    processXlinkReference attrEl moduleName xsdBasePath anc
  else
    let sourceTypeName := findSourceTypeName anc
    if sourceTypeName = "" then none
    else
      some
        { id := "association_" ++ sourceTypeName ++ "_" ++ refStripped
          name := sourceTypeName ++ "_refers_to_" ++ refStripped
          type := RelationshipType.association
          source := sourceTypeName
          target := refStripped
          sourceRole := none
          targetRole := none
          sourceMultiplicity := mult11
          targetMultiplicity := mult01
          direction := RelationshipDirection.unidirectional
          spatialType := none
          xsdPath := pathJoin xsdBasePath (moduleName ++ ".xsd") }

/-- `processAttributeWithType`. -/
def processAttributeWithType (attrEl : XNode) (attributeName attributeType : String)
    (moduleName xsdBasePath : String) (anc : List XNode) : Option RelationshipInfo :=
  let typeParts := jsSplitOnStr attributeType ":"
  let typeStripped := if typeParts.length > 1 then typeParts[1]?.getD "" else typeParts[0]?.getD ""
  if typeParts.length > 1 && typeParts[0]?.getD "" == "xs" then none
  else
    let sourceTypeName := findSourceTypeName anc
    if sourceTypeName = "" then none
    else
      some
        { id := "association_" ++ sourceTypeName ++ "_" ++ attributeName ++ "_" ++ typeStripped
          name := sourceTypeName ++ "_" ++ attributeName ++ "_" ++ typeStripped
          type := RelationshipType.association
          source := sourceTypeName
          target := typeStripped
          sourceRole := some (jsToLower sourceTypeName)
          targetRole := some attributeName
          sourceMultiplicity := mult11
          targetMultiplicity := mult01
          direction := RelationshipDirection.unidirectional
          spatialType := none
          xsdPath := pathJoin xsdBasePath (moduleName ++ ".xsd") }

/-- `extractGeneralizationRelationships`, one module document: every named
`//xs:complexType`, every `.//xs:extension[@base]` under it. -/
def genRelsDoc (moduleName xsdBasePath : String) (doc : XNode) : List RelationshipInfo :=
  (selectAll doc "xs:complexType").flatMap (fun complexTypeEl =>
    let typeName := complexTypeEl.getAttr "name"
    if typeName = "" then []
    else
      (selectBelow complexTypeEl "xs:extension").filterMap (fun extensionEl =>
        let baseTypeName := extensionEl.getAttr "base"
        if baseTypeName = "" then none
        else
          let baseStripped := splitSecondOrFirst baseTypeName ":"
          some
            { id := "generalization_" ++ typeName ++ "_" ++ baseStripped
              name := typeName ++ "_extends_" ++ baseStripped
              type := RelationshipType.generalization
              source := typeName
              target := baseStripped
              sourceRole := none
              targetRole := none
              sourceMultiplicity := mult0star
              targetMultiplicity := mult11
              direction := RelationshipDirection.unidirectional
              spatialType := none
              xsdPath := pathJoin xsdBasePath (moduleName ++ ".xsd") }))

/-- `extractRelationshipsFromElements`, one module document. -/
def elementRelsDoc (moduleName xsdBasePath : String) (doc : XNode) : List RelationshipInfo :=
  (nodesWithAnc doc []).filterMap (fun p =>
    if p.1.tag == "xs:element" then
      let elementName := p.1.getAttr "name"
      let elementRef := p.1.getAttr "ref"
      let elementType := p.1.getAttr "type"
      if jsTruthy elementRef then
        processElementReference p.1 elementRef moduleName xsdBasePath p.2
      else if jsTruthy elementName && jsTruthy elementType then
        processElementWithType p.1 elementName elementType moduleName xsdBasePath p.2
      else none
    else none)

/-- `extractRelationshipsFromAttributes`, one module document. -/
def attributeRelsDoc (moduleName xsdBasePath : String) (doc : XNode) :
    List RelationshipInfo :=
  (nodesWithAnc doc []).filterMap (fun p =>
    if p.1.tag == "xs:attribute" then
      let attributeName := p.1.getAttr "name"
      let attributeType := p.1.getAttr "type"
      let attributeRef := p.1.getAttr "ref"
      if jsTruthy attributeRef then
        processAttributeReference p.1 attributeRef moduleName xsdBasePath p.2
      else if jsTruthy attributeName && jsTruthy attributeType then
        processAttributeWithType p.1 attributeName attributeType moduleName xsdBasePath p.2
      else none
    else none)

/-- `extractGeometryRelationships`, one module document: every
`//xs:element[contains(@name, "geometry") or contains(@name, "Geometry")]`. -/
def geometryRelsDoc (moduleName xsdBasePath : String) (doc : XNode) :
    List RelationshipInfo :=
  (nodesWithAnc doc []).filterMap (fun p =>
    if p.1.tag == "xs:element" &&
        (jsIncludes (p.1.getAttr "name") "geometry" ||
         jsIncludes (p.1.getAttr "name") "Geometry") then
      let geometryName := p.1.getAttr "name"
      let geometryType := p.1.getAttr "type"
      if geometryName = "" || geometryType = "" then none
      else
        let sourceTypeName := findSourceTypeName p.2
        if sourceTypeName = "" then none
        else
          let typeStripped := splitSecondOrFirst geometryType ":"
          let spatialType :=
            if jsIncludes geometryName "boundedBy" then SpatialRelationType.within
            else if jsIncludes geometryName "touches" then SpatialRelationType.touches
            else if jsIncludes geometryName "overlaps" then SpatialRelationType.overlaps
            else SpatialRelationType.contains
          some
            { id := "spatial_" ++ sourceTypeName ++ "_" ++ geometryName ++ "_" ++ typeStripped
              name := sourceTypeName ++ "_has_geometry_" ++ typeStripped
              type := RelationshipType.spatial
              source := sourceTypeName
              target := typeStripped
              sourceRole := some (jsToLower sourceTypeName)
              targetRole := some geometryName
              sourceMultiplicity := mult11
              targetMultiplicity := mult01
              direction := RelationshipDirection.unidirectional
              spatialType := some spatialType
              xsdPath := pathJoin xsdBasePath (moduleName ++ ".xsd") }
    else none)

/-- The `processModuleFile` of the relationship extractor: a file that
cannot be read, or whose document lacks an `xs:schema` element or a truthy
`targetNamespace`, contributes no entry to `moduleXsdDocs`. -/
def loadModuleDoc (fs : FileSystem) (xsdFilePath : String) : Option (String × XNode) :=
  match fs xsdFilePath with
  | none => none
  | some doc =>
    match (selectAll doc "xs:schema")[0]? with
    | none => none
    | some schemaEl =>
      if jsTruthy (schemaEl.getAttr "targetNamespace") then
        some (pathBasenameXsd xsdFilePath, doc)
      else none

/-- `moduleXsdDocs` after the loading loop (an object keyed by module name;
re-assignment of an existing key overwrites in place). -/
def loadModuleDocs (fs : FileSystem) (xsdFilePaths : List String) :
    List (String × XNode) :=
  xsdFilePaths.foldl (fun docs path =>
    match loadModuleDoc fs path with
    | none => docs
    | some p => mapSet docs p.1 p.2) []

/-- Every relationship the four passes insert, in insertion order:
generalization over all modules, then association/aggregation/composition
(elements, then attributes, per module), then the geometry pass.  (The
referential-integrity pass never writes to the relationship map.) -/
def relationshipList (xsdBasePath : String) (docs : List (String × XNode)) :
    List RelationshipInfo :=
  docs.flatMap (fun d => genRelsDoc d.1 xsdBasePath d.2) ++
  docs.flatMap (fun d =>
    elementRelsDoc d.1 xsdBasePath d.2 ++ attributeRelsDoc d.1 xsdBasePath d.2) ++
  docs.flatMap (fun d => geometryRelsDoc d.1 xsdBasePath d.2)

/-- The relationship map: each produced relationship is inserted under its
own id (`this.relationships.set(relationshipId, relationship)`). -/
def extractRelationshipsDocs (xsdBasePath : String) (docs : List (String × XNode)) :
    List (String × RelationshipInfo) :=
  mapSetFold [] ((relationshipList xsdBasePath docs).map (fun r => (r.id, r)))

/-- `extractRelationships`: load the module documents, then run the four
passes. -/
def extractRelationships (xsdBasePath : String) (fs : FileSystem)
    (xsdFilePaths : List String) : List (String × RelationshipInfo) :=
  extractRelationshipsDocs xsdBasePath (loadModuleDocs fs xsdFilePaths)

/-! ## Context assembler relevance scoring
(`ContextBuilder.calculateRelevance`, `src/src/context/templates.ts`).
JS numbers are modelled as exact rationals. -/

/-- `calculateRelevance(str1, str2)`. -/
def calculateRelevance (str1 str2 : String) : ℚ :=
  let s1 := jsToLower str1
  let s2 := jsToLower str2
  if s1 = s2 then 1
  else if jsIncludes s1 s2 || jsIncludes s2 s1 then 8/10
  else
    let words1 := jsSplitWordsFiltered s1
    let words2 := jsSplitWordsFiltered s2
    let commonWords := words1.filter (fun w => words2.contains w)
    if words1.length = 0 || words2.length = 0 then 0
    else
      (commonWords.length : ℚ) /
        ((words1.length : ℚ) + (words2.length : ℚ) - (commonWords.length : ℚ))

/-! ## Derived characterizations and concrete sample data -/

/-- The id shape every relationship producer follows: enum string of the
kind, source, the target role where one is set, then target, joined by
underscores. -/
def relIdOfT (t : RelationshipType) (source target : String)
    (targetRole : Option String) : String :=
  match targetRole with
  | none => jsToLower (relTypeStr t) ++ "_" ++ source ++ "_" ++ target
  | some role => jsToLower (relTypeStr t) ++ "_" ++ source ++ "_" ++ role ++ "_" ++ target

def relIdOf (r : RelationshipInfo) : String :=
  relIdOfT r.type r.source r.target r.targetRole

/-- The per-import module results of one `extractAllModules` run (what the
loop appends to the instance state). -/
def moduleResults (xsdBasePath : String) (fs : FileSystem) (mainXsdDoc : XNode) :
    List ModuleInfo :=
  (selectAll mainXsdDoc "xs:import").filterMap (fun importEl =>
    let schemaLocation := importEl.getAttr "schemaLocation"
    if jsTruthy schemaLocation then
      processModuleFile xsdBasePath fs (pathBasenameXsd schemaLocation) schemaLocation
    else none)

/-- A class whose superclass list carries a foundational marker, placed in
a module (`core`) that is not on the `extractAllCityObjects` allow-list. -/
def thingClass : ClassInfo :=
  { name := "Thing", description := "", module := "core", isAbstract := false,
    attributes := [], associations := [], constraints := [],
    superClasses := ["AbstractCityObject"] }

def coreModule : ModuleInfo :=
  { name := "core", namespace' := "ns", description := "", classes := [thingClass],
    codelists := [], enumerations := [], dependencies := [] }

def coreModel : ConceptualModel := { version := "3.0.0", modules := [coreModule] }

/-- Two city-object classes in the allow-listed `building` module, the
second extending the first. -/
def classA : ClassInfo :=
  { name := "A", description := "", module := "building", isAbstract := false,
    attributes := [], associations := [], constraints := [],
    superClasses := ["AbstractCityObject"] }

def classB : ClassInfo :=
  { name := "B", description := "", module := "building", isAbstract := false,
    attributes := [], associations := [], constraints := [],
    superClasses := ["A", "AbstractCityObject"] }

def buildingModule : ModuleInfo :=
  { name := "building", namespace' := "ns", description := "",
    classes := [classA, classB], codelists := [], enumerations := [],
    dependencies := [] }

def buildingModel : ConceptualModel :=
  { version := "3.0.0", modules := [buildingModule] }

/-- A typed XSD attribute that declares `use="required"`, and its enclosing
named complexType (the ancestor chain `parentNode` would walk). -/
def requiredAttrNode : XNode :=
  XNode.el "xs:attribute" [("name", "function"), ("type", "gml:CodeType"),
    ("use", "required")] []

def enclosingTypeNode : XNode :=
  XNode.el "xs:complexType" [("name", "BuildingType")] [requiredAttrNode]

/-- A schema document with one extension, for exercising the relationship
pipeline end to end. -/
def genSchemaDoc : XNode :=
  XNode.el "xs:schema" [("targetNamespace", "ns")]
    [XNode.el "xs:complexType" [("name", "Wall")]
      [XNode.el "xs:complexContent" []
        [XNode.el "xs:extension" [("base", "bldg:AbstractBuildingSubdivision")] []]]]

def relSampleFs : FileSystem := fun p => if p == "bldg.xsd" then some genSchemaDoc else none

/-- A simpleType with an enumeration facet whose name contains `EnumBase`
without ending in it. -/
def overlapSimpleTypeDoc : XNode :=
  XNode.el "xs:schema" []
    [XNode.el "xs:simpleType" [("name", "AEnumBaseX")]
      [XNode.el "xs:restriction" [("base", "xs:string")]
        [XNode.el "xs:enumeration" [("value", "v1")] []]]]

/-- A root CityGML schema importing one module, and that module's schema. -/
def rootXsdDoc : XNode :=
  XNode.el "xs:schema" []
    [XNode.el "xs:import" [("namespace", "ns"), ("schemaLocation", "building.xsd")] []]

def buildingXsdDoc : XNode :=
  XNode.el "xs:schema" [("targetNamespace", "ns")] []

/-- Filesystem with the root schema and the one imported module present. -/
def conceptFsGood : FileSystem := fun p =>
  if p == "base/CityGML.xsd" then some rootXsdDoc
  else if p == "base/building.xsd" then some buildingXsdDoc
  else none

/-- The module `extractAllModules` derives from `buildingXsdDoc`. -/
def buildingModuleExtracted : ModuleInfo :=
  { name := "building", namespace' := "ns", description := "", classes := [],
    codelists := [], enumerations := [], dependencies := [] }

/-- A root schema importing two modules, the second of which is missing
from the filesystem. -/
def rootTwoImportsDoc : XNode :=
  XNode.el "xs:schema" []
    [XNode.el "xs:import" [("schemaLocation", "building.xsd")] [],
     XNode.el "xs:import" [("schemaLocation", "missing.xsd")] []]

def conceptFsPartial : FileSystem := fun p =>
  if p == "base/CityGML.xsd" then some rootTwoImportsDoc
  else if p == "base/building.xsd" then some buildingXsdDoc
  else none

/-- A filesystem without the root schema. -/
def conceptFsNoRoot : FileSystem := fun _ => none

/-- A model whose single attribute has cardinality `"4..1"` (minimum
occurrence 4). -/
def card4Attr : AttributeInfo :=
  { name := "a", type := "string", cardinality := "4..1", isNillable := false,
    description := "" }

def card4Class : ClassInfo :=
  { name := "C", description := "", module := "m", isAbstract := false,
    attributes := [card4Attr], associations := [], constraints := [],
    superClasses := [] }

def card4Module : ModuleInfo :=
  { name := "m", namespace' := "ns", description := "", classes := [card4Class],
    codelists := [], enumerations := [], dependencies := [] }

def card4Model : ConceptualModel :=
  { version := "3.0.0", modules := [card4Module] }

/-- The relationship `processAttributeWithType` derives from
`requiredAttrNode` inside `enclosingTypeNode`. -/
def functionAttrRel : RelationshipInfo :=
  { id := "association_BuildingType_function_CodeType"
    name := "BuildingType_function_CodeType"
    type := RelationshipType.association
    source := "BuildingType"
    target := "CodeType"
    sourceRole := some "buildingtype"
    targetRole := some "function"
    sourceMultiplicity := mult11
    targetMultiplicity := mult01
    direction := RelationshipDirection.unidirectional
    spatialType := none
    xsdPath := "base/building.xsd" }

/-- The generalization edge extracted from `genSchemaDoc`. -/
def wallGenRel : RelationshipInfo :=
  { id := "generalization_Wall_AbstractBuildingSubdivision"
    name := "Wall_extends_AbstractBuildingSubdivision"
    type := RelationshipType.generalization
    source := "Wall"
    target := "AbstractBuildingSubdivision"
    sourceRole := none
    targetRole := none
    sourceMultiplicity := mult0star
    targetMultiplicity := mult11
    direction := RelationshipDirection.unidirectional
    spatialType := none
    xsdPath := "base/bldg.xsd" }

/-- The two city objects of `buildingModel` after hierarchy linking. -/
def cityObjA : CityObject :=
  { name := "A", module := "building", isAbstract := false,
    superClasses := ["AbstractCityObject"], attributes := [], associations := [],
    geometryProperties := [], lodInfo := LodInfo.mk 0 0 [],
    thematicAttributes := [], children := ["B"] }

def cityObjB : CityObject :=
  { name := "B", module := "building", isAbstract := false,
    superClasses := ["A", "AbstractCityObject"], attributes := [], associations := [],
    geometryProperties := [], lodInfo := LodInfo.mk 0 0 [],
    thematicAttributes := [], children := [] }

/-- The intermediate map of `extractAllCityObjects` before the hierarchy
pass (its `cityObjects` local). -/
def cityObjectsPre (model : ConceptualModel) : List (String × CityObject) :=
  model.modules.foldl (fun cityObjects md =>
    if cityObjectModules.contains md.name then
      mapSetFold cityObjects (extractCityObjectsFromModule md)
    else cityObjects) []

/-! ## Association-list map lemmas -/

theorem eq_of_beq_str {a b : String} (h : (a == b) = true) : a = b := eq_of_beq h

theorem keyMem_mapSet {α : Type} (m : List (String × α)) (k k' : String) (v : α) :
    keyMem (mapSet m k v) k' = (keyMem m k' || k == k') := by
  simp only [keyMem, mapSet]
  by_cases hex : m.any (fun p => p.1 == k)
  · simp only [hex, if_true, List.any_map]
    have hfp : ((fun p => p.1 == k') ∘ fun p : String × α =>
        if p.1 == k then (k, v) else p) = (fun p => p.1 == k') := by
      funext p
      by_cases hpk : p.1 == k
      · simp only [Function.comp_apply, hpk, if_true]
        rw [eq_of_beq_str hpk]
      · simp only [Function.comp_apply, hpk, if_neg, Bool.false_eq_true, not_false_iff]
    rw [hfp]
    by_cases hk : k == k'
    · have hm : m.any (fun p => p.1 == k') = true := by
        rw [List.any_eq_true] at hex ⊢
        obtain ⟨p, hp, hpk⟩ := hex
        exact ⟨p, hp, by rw [eq_of_beq_str hpk]; exact hk⟩
      rw [hm, hk, Bool.true_or]
    · simp only [hk, Bool.or_false]
  · have hex' : m.any (fun p => p.1 == k) = false := Bool.eq_false_iff.mpr hex
    simp only [hex', Bool.false_eq_true, if_false, List.any_append, List.any_cons,
      List.any_nil, Bool.or_false]

theorem keyMem_mapSetFold {α : Type} (ps : List (String × α)) (init : List (String × α))
    (k : String) :
    keyMem (mapSetFold init ps) k = (keyMem init k || ps.any (fun p => p.1 == k)) := by
  induction ps generalizing init with
  | nil => simp [mapSetFold]
  | cons p ps ih =>
    simp only [mapSetFold, List.foldl_cons, List.any_cons]
    rw [show (List.foldl (fun m p => mapSet m p.1 p.2) (mapSet init p.1 p.2) ps) =
        mapSetFold (mapSet init p.1 p.2) ps from rfl, ih, keyMem_mapSet, Bool.or_assoc]

theorem mem_mapSet {α : Type} {m : List (String × α)} {k k' : String} {v v' : α}
    (h : (k', v') ∈ mapSet m k v) : (k', v') ∈ m ∨ (k' = k ∧ v' = v) := by
  simp only [mapSet] at h
  by_cases hex : m.any (fun p => p.1 == k)
  · simp only [hex, if_true, List.mem_map] at h
    obtain ⟨p, hp, hpe⟩ := h
    by_cases hpk : p.1 == k
    · simp only [hpk, if_true] at hpe
      right
      exact ⟨congrArg Prod.fst hpe.symm, congrArg Prod.snd hpe.symm⟩
    · simp only [hpk, if_neg, Bool.false_eq_true, not_false_iff] at hpe
      left
      exact hpe ▸ hp
  · have hex' : m.any (fun p => p.1 == k) = false := Bool.eq_false_iff.mpr hex
    simp only [hex', Bool.false_eq_true, if_false, List.mem_append,
      List.mem_singleton, Prod.mk.injEq] at h
    rcases h with h | h
    · exact Or.inl h
    · exact Or.inr h

theorem mem_mapSetFold {α : Type} {ps : List (String × α)} {init : List (String × α)}
    {k : String} {v : α} (h : (k, v) ∈ mapSetFold init ps) :
    (k, v) ∈ init ∨ (k, v) ∈ ps := by
  induction ps generalizing init with
  | nil => exact Or.inl h
  | cons p ps ih =>
    simp only [mapSetFold, List.foldl_cons] at h
    rcases ih h with h' | h'
    · rcases mem_mapSet h' with h'' | h''
      · exact Or.inl h''
      · refine Or.inr ?_
        simp only [List.mem_cons]
        left
        rw [h''.1, h''.2]
    · exact Or.inr (List.mem_cons_of_mem _ h')

/-- `mapSet` preserves any per-entry invariant that the inserted pair
satisfies. -/
theorem mapSet_invariant {α : Type} {P : String → α → Prop} {m : List (String × α)}
    {k : String} {v : α} (hm : ∀ p ∈ m, P p.1 p.2) (hv : P k v) :
    ∀ p ∈ mapSet m k v, P p.1 p.2 := by
  intro p hp
  rcases @mem_mapSet _ m k p.1 v p.2 (by simpa using hp) with h | h
  · exact hm _ h
  · rw [h.1, h.2]
    exact hv

theorem mapSetFold_invariant {α : Type} {P : String → α → Prop}
    {ps : List (String × α)} {init : List (String × α)}
    (hinit : ∀ p ∈ init, P p.1 p.2) (hps : ∀ p ∈ ps, P p.1 p.2) :
    ∀ p ∈ mapSetFold init ps, P p.1 p.2 := by
  induction ps generalizing init with
  | nil => exact hinit
  | cons q ps ih =>
    intro p hp
    simp only [mapSetFold, List.foldl_cons] at hp
    refine ih (mapSet_invariant hinit ?_) (fun r hr => hps r (List.mem_cons_of_mem _ hr)) p hp
    exact hps q (List.mem_cons_self q ps)

/-! ## Concept extractor: error policy and re-run behaviour -/

theorem foldl_append_filterMap {α β : Type} (g : α → Option β) (l : List α)
    (init : List β) :
    l.foldl (fun acc x => acc ++ (g x).toList) init = init ++ l.filterMap g := by
  induction l generalizing init with
  | nil => simp
  | cons x xs ih =>
    simp only [List.foldl_cons, List.filterMap_cons]
    cases hm : g x with
    | none => rw [ih]; simp
    | some m => rw [ih, List.append_assoc]; simp

/-- `extractAllModules` in closed form: an error exactly on a missing root
file, otherwise the prior module list extended by this run's results. -/
theorem extractAllModulesS_eq (base : String) (modules0 : List ModuleInfo)
    (fs : FileSystem) :
    extractAllModulesS base modules0 fs =
      match fs (pathJoin base "CityGML.xsd") with
      | none => Except.error ()
      | some doc =>
        Except.ok { version := "3.0.0", modules := modules0 ++ moduleResults base fs doc } := by
  unfold extractAllModulesS
  cases hroot : fs (pathJoin base "CityGML.xsd") with
  | none => rfl
  | some doc =>
    have hfun : (fun (acc : List ModuleInfo) (importEl : XNode) =>
        let schemaLocation := importEl.getAttr "schemaLocation"
        if jsTruthy schemaLocation then
          match processModuleFile base fs (pathBasenameXsd schemaLocation)
              schemaLocation with
          | some m => acc ++ [m]
          | none => acc
        else acc) =
        (fun (acc : List ModuleInfo) (importEl : XNode) =>
          acc ++ (if jsTruthy (importEl.getAttr "schemaLocation") = true then
              processModuleFile base fs (pathBasenameXsd (importEl.getAttr "schemaLocation"))
                (importEl.getAttr "schemaLocation")
            else none).toList) := by
      funext acc importEl
      by_cases h : jsTruthy (importEl.getAttr "schemaLocation")
      · simp only [h, if_true]
        cases processModuleFile base fs
            (pathBasenameXsd (importEl.getAttr "schemaLocation"))
            (importEl.getAttr "schemaLocation") with
        | none => simp
        | some m => simp
      · simp [h]
    rw [hfun]
    simp only [foldl_append_filterMap]
    rfl

/-- C7: a missing root schema file makes `extractAllModules` throw; a
missing (or schema-less) imported module file only removes that module,
and extraction returns the partial model built from the other imports. -/
theorem concept_extractor_error_policy (base : String) (fs : FileSystem)
    (modules0 : List ModuleInfo) :
    (fs (pathJoin base "CityGML.xsd") = none →
      extractAllModulesS base modules0 fs = Except.error ()) ∧
    (∀ doc, fs (pathJoin base "CityGML.xsd") = some doc →
      extractAllModulesS base modules0 fs =
        Except.ok { version := "3.0.0", modules := modules0 ++ moduleResults base fs doc }) ∧
    (∀ moduleName loc, fs (pathJoin base loc) = none →
      processModuleFile base fs moduleName loc = none) := by
  refine ⟨fun hroot => ?_, fun doc hroot => ?_, fun moduleName loc hloc => ?_⟩
  · rw [extractAllModulesS_eq, hroot]
  · rw [extractAllModulesS_eq, hroot]
  · unfold processModuleFile
    rw [hloc]

/-- Witness for C7: on a filesystem without the root file the call errors;
with the root present but one of two imported module files missing, the
call succeeds with only the readable module, and the failing module's
processing yields nothing. -/
theorem concept_extractor_error_policy_witness :
    extractAllModulesS "base" [] conceptFsNoRoot = Except.error () ∧
    extractAllModulesS "base" [] conceptFsPartial =
      Except.ok { version := "3.0.0", modules := [buildingModuleExtracted] } ∧
    processModuleFile "base" conceptFsPartial "missing" "missing.xsd" = none := by
  refine ⟨(concept_extractor_error_policy "base" conceptFsNoRoot []).1 rfl, ?_, ?_⟩
  · exact ((concept_extractor_error_policy "base" conceptFsPartial []).2.1
      rootTwoImportsDoc rfl).trans (by rfl)
  · exact (concept_extractor_error_policy "base" conceptFsPartial []).2.2
      "missing" "missing.xsd" rfl

/-- C9 counterexample: calling `extractAllModules` a second time on the
same extractor instance appends a second copy of every module, so the two
returned models are not structurally equal. -/
theorem concept_extractor_rerun_accumulates :
    extractAllModulesS "base" [] conceptFsGood =
      Except.ok (ConceptualModel.mk "3.0.0" [buildingModuleExtracted]) ∧
    extractAllModulesS "base" [buildingModuleExtracted] conceptFsGood =
      Except.ok (ConceptualModel.mk "3.0.0"
        [buildingModuleExtracted, buildingModuleExtracted]) ∧
    ConceptualModel.mk "3.0.0" [buildingModuleExtracted] ≠
      ConceptualModel.mk "3.0.0" [buildingModuleExtracted, buildingModuleExtracted] := by
  refine ⟨by rfl, by rfl, by decide⟩

/-- C9 amended: two runs over the same unchanged filesystem always derive
the same per-run module list; in particular two runs from freshly
constructed extractors (both prior states `[]`) return structurally equal
models, while a re-run on a used instance merely appends that same list to
its accumulated state. -/
theorem concept_extractor_runs_agree (base : String) (fs : FileSystem)
    (st₁ st₂ : List ModuleInfo) (m₁ m₂ : ConceptualModel)
    (h₁ : extractAllModulesS base st₁ fs = Except.ok m₁)
    (h₂ : extractAllModulesS base st₂ fs = Except.ok m₂) :
    ∃ fresh, m₁.modules = st₁ ++ fresh ∧ m₂.modules = st₂ ++ fresh := by
  rw [extractAllModulesS_eq] at h₁ h₂
  cases hroot : fs (pathJoin base "CityGML.xsd") with
  | none => rw [hroot] at h₁; exact absurd h₁ (by simp)
  | some doc =>
    rw [hroot] at h₁ h₂
    refine ⟨moduleResults base fs doc, ?_, ?_⟩
    · have := (Except.ok.injEq _ _).mp h₁
      rw [← this]
    · have := (Except.ok.injEq _ _).mp h₂
      rw [← this]

/-- Witness for C9's amended theorem at a concrete filesystem and the two
instance states of the counterexample. -/
theorem concept_extractor_runs_agree_witness :
    ∃ fresh, (ConceptualModel.mk "3.0.0" [buildingModuleExtracted]).modules =
        [] ++ fresh ∧
      (ConceptualModel.mk "3.0.0"
        [buildingModuleExtracted, buildingModuleExtracted]).modules =
        [buildingModuleExtracted] ++ fresh :=
  concept_extractor_runs_agree "base" conceptFsGood [] [buildingModuleExtracted]
    (ConceptualModel.mk "3.0.0" [buildingModuleExtracted])
    (ConceptualModel.mk "3.0.0" [buildingModuleExtracted, buildingModuleExtracted])
    (by rfl) (by rfl)

/-! ## Attribute classifier: cardinality buckets -/

/-- C8: an attribute whose cardinality string starts with the non-zero
digit `4` lands in no bucket at all: the required test checks only the
digits 1, 2 and 3, contradicting both the claim and the source's own
comment that required means a minimum occurrence of at least 1. -/
theorem analyzeCardinality_min_four_unbucketed :
    jsStartsWith "4..1" "4" = true ∧
    analyzeCardinality card4Model = CardinalitySummary.mk [] [] [] :=
  ⟨by decide, by decide⟩

/-! ## Relationship extractor: attribute-case multiplicities -/

/-- C3 counterexample: a typed, non-built-in XSD attribute that declares
`use="required"` still gets target multiplicity `{min: 0, max: 1}` — the
`use` attribute is never consulted. -/
theorem processAttributeWithType_ignores_use :
    requiredAttrNode.getAttr "use" = "required" ∧
    (processAttributeWithType requiredAttrNode "function" "gml:CodeType" "building"
      "base" [enclosingTypeNode]).map (fun r => r.targetMultiplicity) = some mult01 ∧
    mult01 ≠ mult11 :=
  ⟨by decide, by decide, by decide⟩

/-- C3 amended: every association generated from a typed, non-built-in XSD
attribute has source multiplicity fixed at `{min: 1, max: 1}` and target
multiplicity fixed at `{min: 0, max: 1}`, regardless of `use`. -/
theorem processAttributeWithType_multiplicities (attrEl : XNode)
    (attributeName attributeType moduleName xsdBasePath : String) (anc : List XNode)
    (r : RelationshipInfo)
    (h : processAttributeWithType attrEl attributeName attributeType moduleName
      xsdBasePath anc = some r) :
    r.type = RelationshipType.association ∧ r.sourceMultiplicity = mult11 ∧
      r.targetMultiplicity = mult01 := by
  unfold processAttributeWithType at h
  simp only [] at h
  split at h
  · exact absurd h (by simp)
  · split at h
    · exact absurd h (by simp)
    · have hr := (Option.some.injEq _ _).mp h
      subst hr
      exact ⟨rfl, rfl, rfl⟩

/-- Witness for C3's amended theorem at the `use="required"` sample. -/
theorem processAttributeWithType_multiplicities_witness :
    functionAttrRel.type = RelationshipType.association ∧
    functionAttrRel.sourceMultiplicity = mult11 ∧
    functionAttrRel.targetMultiplicity = mult01 :=
  processAttributeWithType_multiplicities requiredAttrNode "function" "gml:CodeType"
    "building" "base" [enclosingTypeNode] functionAttrRel (by rfl)

/-! ## Context assembler: relevance score -/

/-- C1: the third branch divides the count of `words1` tokens found in
`words2` (a list with multiplicities, not a set) by
`|words1| + |words2| - |common|`; with repeated tokens the result exceeds
1, contradicting the claimed `[0, 1]` range and the set-Jaccard reading
(the set Jaccard of these two strings would be 1/3). -/
theorem calculateRelevance_exceeds_unit_interval :
    calculateRelevance "ab ab ab ab ef" "ab cd" = 4/3 ∧
    ¬(calculateRelevance "ab ab ab ab ef" "ab cd" ≤ 1) := by
  have h : calculateRelevance "ab ab ab ab ef" "ab cd" =
      ((4 : ℕ) : ℚ) / (((5 : ℕ) : ℚ) + ((2 : ℕ) : ℚ) - ((4 : ℕ) : ℚ)) := rfl
  rw [h]
  norm_num

/-! ## Object classifier: membership and hierarchy -/

theorem extractAllCityObjects_eq (model : ConceptualModel) :
    extractAllCityObjects model = buildObjectHierarchy (cityObjectsPre model) := rfl

theorem keyMem_extractCityObjectsFromModule_general (md : ModuleInfo) (n : String)
    (cs : List ClassInfo) (init : List (String × CityObject)) :
    keyMem (cs.foldl (fun objects classInfo =>
        if isCityObjectClass classInfo then
          mapSet objects classInfo.name (mkCityObject md classInfo)
        else objects) init) n =
      (keyMem init n || cs.any (fun c => isCityObjectClass c && c.name == n)) := by
  induction cs generalizing init with
  | nil => simp
  | cons c cs ih =>
    simp only [List.foldl_cons, List.any_cons]
    by_cases hc : isCityObjectClass c
    · simp only [hc, if_true, ih, keyMem_mapSet, Bool.true_and, Bool.or_assoc]
    · have hc' : isCityObjectClass c = false := Bool.eq_false_iff.mpr hc
      simp only [hc', Bool.false_eq_true, if_false, ih, Bool.false_and, Bool.false_or]

theorem keyMem_extractCityObjectsFromModule (md : ModuleInfo) (n : String) :
    keyMem (extractCityObjectsFromModule md) n =
      md.classes.any (fun c => isCityObjectClass c && c.name == n) := by
  unfold extractCityObjectsFromModule
  rw [keyMem_extractCityObjectsFromModule_general]
  rfl

theorem keyMem_cityObjectsPre_general (n : String) (mds : List ModuleInfo)
    (init : List (String × CityObject)) :
    keyMem (mds.foldl (fun cityObjects md =>
        if cityObjectModules.contains md.name then
          mapSetFold cityObjects (extractCityObjectsFromModule md)
        else cityObjects) init) n =
      (keyMem init n || mds.any (fun md => cityObjectModules.contains md.name &&
        md.classes.any (fun c => isCityObjectClass c && c.name == n))) := by
  induction mds generalizing init with
  | nil => simp
  | cons md mds ih =>
    simp only [List.foldl_cons, List.any_cons]
    by_cases hmd : cityObjectModules.contains md.name
    · simp only [hmd, if_true, ih, keyMem_mapSetFold, Bool.true_and, Bool.or_assoc]
      rw [show (extractCityObjectsFromModule md).any (fun p => p.1 == n) =
          keyMem (extractCityObjectsFromModule md) n from rfl,
        keyMem_extractCityObjectsFromModule]
    · have hmd' : cityObjectModules.contains md.name = false := Bool.eq_false_iff.mpr hmd
      simp only [hmd', Bool.false_eq_true, if_false, ih, Bool.false_and, Bool.false_or]

theorem keyMem_buildObjectHierarchy (objects : List (String × CityObject)) (n : String) :
    keyMem (buildObjectHierarchy objects) n = keyMem objects n := by
  unfold keyMem buildObjectHierarchy
  rw [List.any_map]
  rfl

/-- C2 counterexample: `thingClass` extends a foundational marker type,
yet its module (`core`) is not on the fixed module allow-list, so the
returned mapping is empty. -/
theorem extractAllCityObjects_misses_unlisted_module :
    isCityObjectClass thingClass = true ∧ thingClass ∈ coreModule.classes ∧
    coreModule ∈ coreModel.modules ∧ extractAllCityObjects coreModel = [] :=
  ⟨by decide, by decide, by decide, by decide⟩

/-- C2 amended: a class name appears in the mapping returned by
`extractAllCityObjects` iff some module on the fixed city-object module
allow-list declares a class of that name that passes `isCityObjectClass`
(superclass containing a foundational marker, or own name containing a
domain-vocabulary substring). -/
theorem extractAllCityObjects_membership (model : ConceptualModel) (n : String) :
    keyMem (extractAllCityObjects model) n = true ↔
      ∃ md ∈ model.modules, cityObjectModules.contains md.name = true ∧
        ∃ c ∈ md.classes, c.name = n ∧ isCityObjectClass c = true := by
  rw [extractAllCityObjects_eq, keyMem_buildObjectHierarchy]
  unfold cityObjectsPre
  rw [keyMem_cityObjectsPre_general]
  simp only [keyMem, List.any_nil, Bool.false_or, List.any_eq_true, Bool.and_eq_true,
    beq_iff_eq]
  constructor
  · rintro ⟨md, hmd, hlist, c, hc, hcls, hname⟩
    exact ⟨md, hmd, hlist, c, hc, hname, hcls⟩
  · rintro ⟨md, hmd, hlist, c, hc, hname, hcls⟩
    exact ⟨md, hmd, hlist, c, hc, hcls, hname⟩

theorem contains_iff_mem (l : List String) (a : String) : l.contains a = true ↔ a ∈ l := by
  induction l with
  | nil => simp
  | cons x xs ih =>
    simp only [List.contains_cons, List.mem_cons, Bool.or_eq_true, beq_iff_eq, ih]

theorem extractCityObjectsFromModule_name (md : ModuleInfo) :
    ∀ p ∈ extractCityObjectsFromModule md, p.2.name = p.1 := by
  unfold extractCityObjectsFromModule
  suffices h : ∀ (cs : List ClassInfo) (init : List (String × CityObject)),
      (∀ p ∈ init, p.2.name = p.1) →
      ∀ p ∈ cs.foldl (fun objects classInfo =>
        if isCityObjectClass classInfo then
          mapSet objects classInfo.name (mkCityObject md classInfo)
        else objects) init, p.2.name = p.1 by
    exact h md.classes [] (by simp)
  intro cs
  induction cs with
  | nil => intro init hinit; exact hinit
  | cons c cs ih =>
    intro init hinit
    simp only [List.foldl_cons]
    by_cases hc : isCityObjectClass c
    · simp only [hc, if_true]
      exact ih _ (@mapSet_invariant _ (fun k v => v.name = k) init c.name
        (mkCityObject md c) hinit rfl)
    · have hc' : isCityObjectClass c = false := Bool.eq_false_iff.mpr hc
      simp only [hc', Bool.false_eq_true, if_false]
      exact ih _ hinit

theorem cityObjectsPre_name (model : ConceptualModel) :
    ∀ p ∈ cityObjectsPre model, p.2.name = p.1 := by
  unfold cityObjectsPre
  suffices h : ∀ (mds : List ModuleInfo) (init : List (String × CityObject)),
      (∀ p ∈ init, p.2.name = p.1) →
      ∀ p ∈ mds.foldl (fun cityObjects md =>
        if cityObjectModules.contains md.name then
          mapSetFold cityObjects (extractCityObjectsFromModule md)
        else cityObjects) init, p.2.name = p.1 by
    exact h model.modules [] (by simp)
  intro mds
  induction mds with
  | nil => intro init hinit; exact hinit
  | cons md mds ih =>
    intro init hinit
    simp only [List.foldl_cons]
    by_cases hmd : cityObjectModules.contains md.name
    · simp only [hmd, if_true]
      exact ih _ (@mapSetFold_invariant _ (fun k v => v.name = k)
        (extractCityObjectsFromModule md) init hinit (extractCityObjectsFromModule_name md))
    · have hmd' : cityObjectModules.contains md.name = false := Bool.eq_false_iff.mpr hmd
      simp only [hmd', Bool.false_eq_true, if_false]
      exact ih _ hinit

/-- C4: hierarchy symmetry — for any two entries of the mapping returned
by `extractAllCityObjects`, if the first object's name occurs in the
second's `superClasses`, then the second's name occurs in the first's
`children` after the `buildObjectHierarchy` pass. -/
theorem cityObject_hierarchy_symmetric (model : ConceptualModel) (p c : String)
    (P C : CityObject) (hp : (p, P) ∈ extractAllCityObjects model)
    (hc : (c, C) ∈ extractAllCityObjects model) (hsup : P.name ∈ C.superClasses) :
    C.name ∈ P.children := by
  rw [extractAllCityObjects_eq] at hp hc
  unfold buildObjectHierarchy at hp hc
  rw [List.mem_map] at hp hc
  obtain ⟨eP, heP, hfP⟩ := hp
  obtain ⟨eC, heC, hfC⟩ := hc
  have hP : P = { eP.2 with children := (cityObjectsPre model).filterMap (fun child =>
      if child.2.superClasses.contains eP.1 then some child.1 else none) } :=
    (congrArg Prod.snd hfP).symm
  have hC : C = { eC.2 with children := (cityObjectsPre model).filterMap (fun child =>
      if child.2.superClasses.contains eC.1 then some child.1 else none) } :=
    (congrArg Prod.snd hfC).symm
  have hPname : P.name = eP.1 := by
    rw [hP]
    exact cityObjectsPre_name model eP heP
  have hCname : C.name = eC.1 := by
    rw [hC]
    exact cityObjectsPre_name model eC heC
  have hsup' : eP.1 ∈ eC.2.superClasses := by
    rw [hPname] at hsup
    rw [hC] at hsup
    exact hsup
  have hcond : eC.2.superClasses.contains eP.1 = true := (contains_iff_mem _ _).mpr hsup'
  rw [hCname, hP]
  exact List.mem_filterMap.mpr ⟨eC, heC, by simp only [hcond, if_true]⟩

/-- Witness for C4 on the two-class `building` model: `A`'s children
contain `B` because `B` lists `A` among its superclasses. -/
theorem cityObject_hierarchy_symmetric_witness : cityObjB.name ∈ cityObjA.children :=
  cityObject_hierarchy_symmetric buildingModel "A" "B" cityObjA cityObjB
    (by decide) (by decide) (by decide)

/-! ## Relationship extractor: id discipline -/

theorem processElementReference_id (el : XNode) (elementRef moduleName xsdBasePath : String)
    (anc : List XNode) (r : RelationshipInfo)
    (h : processElementReference el elementRef moduleName xsdBasePath anc = some r) :
    r.id = relIdOf r := by
  unfold processElementReference at h
  simp only [] at h
  split at h
  · exact absurd h (by simp)
  · have hr := (Option.some.injEq _ _).mp h
    subst hr
    rfl

theorem processElementWithType_id (el : XNode)
    (elementName elementType moduleName xsdBasePath : String)
    (anc : List XNode) (r : RelationshipInfo)
    (h : processElementWithType el elementName elementType moduleName xsdBasePath anc
      = some r) :
    r.id = relIdOf r := by
  unfold processElementWithType at h
  simp only [] at h
  split at h
  · exact absurd h (by simp)
  · split at h
    · exact absurd h (by simp)
    · have hr := (Option.some.injEq _ _).mp h
      subst hr
      rfl

theorem processXlinkReference_id (attrEl : XNode) (moduleName xsdBasePath : String)
    (anc : List XNode) (r : RelationshipInfo)
    (h : processXlinkReference attrEl moduleName xsdBasePath anc = some r) :
    r.id = relIdOf r := by
  unfold processXlinkReference at h
  split at h
  · exact absurd h (by simp)
  · have hr := (Option.some.injEq _ _).mp h
    subst hr
    rfl

theorem processAttributeReference_id (attrEl : XNode)
    (attributeRef moduleName xsdBasePath : String) (anc : List XNode)
    (r : RelationshipInfo)
    (h : processAttributeReference attrEl attributeRef moduleName xsdBasePath anc
      = some r) :
    r.id = relIdOf r := by
  unfold processAttributeReference at h
  simp only [] at h
  repeat' split at h
  · exact processXlinkReference_id _ _ _ _ _ h
  · exact absurd h (by simp)
  · obtain rfl := (Option.some.injEq _ _).mp h
    rfl
  · exact processXlinkReference_id _ _ _ _ _ h
  · exact absurd h (by simp)
  · obtain rfl := (Option.some.injEq _ _).mp h
    rfl

theorem processAttributeWithType_id (attrEl : XNode)
    (attributeName attributeType moduleName xsdBasePath : String) (anc : List XNode)
    (r : RelationshipInfo)
    (h : processAttributeWithType attrEl attributeName attributeType moduleName
      xsdBasePath anc = some r) :
    r.id = relIdOf r := by
  unfold processAttributeWithType at h
  simp only [] at h
  split at h
  · exact absurd h (by simp)
  · split at h
    · exact absurd h (by simp)
    · have hr := (Option.some.injEq _ _).mp h
      subst hr
      rfl

theorem genRelsDoc_id (moduleName xsdBasePath : String) (doc : XNode)
    (r : RelationshipInfo) (h : r ∈ genRelsDoc moduleName xsdBasePath doc) :
    r.id = relIdOf r := by
  unfold genRelsDoc at h
  rw [List.mem_flatMap] at h
  obtain ⟨ct, _, hct⟩ := h
  simp only [] at hct
  split at hct
  · exact absurd hct (by simp)
  · rw [List.mem_filterMap] at hct
    obtain ⟨ext, _, hext⟩ := hct
    split at hext
    · exact absurd hext (by simp)
    · have hr := (Option.some.injEq _ _).mp hext
      subst hr
      rfl

theorem elementRelsDoc_id (moduleName xsdBasePath : String) (doc : XNode)
    (r : RelationshipInfo) (h : r ∈ elementRelsDoc moduleName xsdBasePath doc) :
    r.id = relIdOf r := by
  unfold elementRelsDoc at h
  rw [List.mem_filterMap] at h
  obtain ⟨p, _, hp⟩ := h
  simp only [] at hp
  split at hp
  · split at hp
    · exact processElementReference_id _ _ _ _ _ _ hp
    · split at hp
      · exact processElementWithType_id _ _ _ _ _ _ _ hp
      · exact absurd hp (by simp)
  · exact absurd hp (by simp)

theorem attributeRelsDoc_id (moduleName xsdBasePath : String) (doc : XNode)
    (r : RelationshipInfo) (h : r ∈ attributeRelsDoc moduleName xsdBasePath doc) :
    r.id = relIdOf r := by
  unfold attributeRelsDoc at h
  rw [List.mem_filterMap] at h
  obtain ⟨p, _, hp⟩ := h
  simp only [] at hp
  split at hp
  · split at hp
    · exact processAttributeReference_id _ _ _ _ _ _ hp
    · split at hp
      · exact processAttributeWithType_id _ _ _ _ _ _ _ hp
      · exact absurd hp (by simp)
  · exact absurd hp (by simp)

theorem geometryRelsDoc_id (moduleName xsdBasePath : String) (doc : XNode)
    (r : RelationshipInfo) (h : r ∈ geometryRelsDoc moduleName xsdBasePath doc) :
    r.id = relIdOf r := by
  unfold geometryRelsDoc at h
  rw [List.mem_filterMap] at h
  obtain ⟨p, _, hp⟩ := h
  simp only [] at hp
  split at hp
  · split at hp
    · exact absurd hp (by simp)
    · split at hp
      · exact absurd hp (by simp)
      · have hr := (Option.some.injEq _ _).mp hp
        subst hr
        rfl
  · exact absurd hp (by simp)

theorem relationshipList_id (xsdBasePath : String) (docs : List (String × XNode))
    (r : RelationshipInfo) (h : r ∈ relationshipList xsdBasePath docs) :
    r.id = relIdOf r := by
  unfold relationshipList at h
  rw [List.mem_append] at h
  rcases h with h | h
  · rw [List.mem_append] at h
    rcases h with h | h
    · rw [List.mem_flatMap] at h
      obtain ⟨d, _, hd⟩ := h
      exact genRelsDoc_id _ _ _ _ hd
    · rw [List.mem_flatMap] at h
      obtain ⟨d, _, hd⟩ := h
      rw [List.mem_append] at hd
      rcases hd with hd | hd
      · exact elementRelsDoc_id _ _ _ _ hd
      · exact attributeRelsDoc_id _ _ _ _ hd
  · rw [List.mem_flatMap] at h
    obtain ⟨d, _, hd⟩ := h
    exact geometryRelsDoc_id _ _ _ _ hd

theorem keys_mapSet {α : Type} (m : List (String × α)) (k : String) (v : α)
    (hnd : (m.map Prod.fst).Nodup) : ((mapSet m k v).map Prod.fst).Nodup := by
  unfold mapSet
  by_cases hex : m.any (fun p => p.1 == k)
  · simp only [hex, if_true, List.map_map]
    have : (Prod.fst ∘ fun p : String × α => if p.1 == k then (k, v) else p) =
        Prod.fst := by
      funext p
      by_cases hpk : p.1 == k
      · simp only [Function.comp_apply, hpk, if_true]
        exact (eq_of_beq_str hpk).symm
      · simp only [Function.comp_apply, hpk, if_neg, Bool.false_eq_true, not_false_iff]
    rw [this]
    exact hnd
  · have hex' : m.any (fun p => p.1 == k) = false := Bool.eq_false_iff.mpr hex
    simp only [hex', Bool.false_eq_true, if_false, List.map_append, List.map_cons,
      List.map_nil]
    rw [List.nodup_append]
    refine ⟨hnd, List.nodup_singleton k, ?_⟩
    intro a ha hak
    rw [List.mem_singleton] at hak
    subst hak
    rw [List.mem_map] at ha
    obtain ⟨p, hp, hpk⟩ := ha
    rw [List.any_eq_true] at hex
    exact hex ⟨p, hp, by simp [hpk]⟩

theorem keys_mapSetFold {α : Type} (ps : List (String × α)) (init : List (String × α))
    (hnd : (init.map Prod.fst).Nodup) : ((mapSetFold init ps).map Prod.fst).Nodup := by
  induction ps generalizing init with
  | nil => exact hnd
  | cons p ps ih =>
    simp only [mapSetFold, List.foldl_cons]
    exact ih _ (keys_mapSet _ _ _ hnd)

/-- C10: in the map returned by `extractRelationships`, every entry's key
equals the `id` of the stored relationship, and the keys are pairwise
distinct. -/
theorem relationship_map_key_eq_id (xsdBasePath : String) (fs : FileSystem)
    (xsdFilePaths : List String) :
    (∀ k rel, (k, rel) ∈ extractRelationships xsdBasePath fs xsdFilePaths →
      rel.id = k) ∧
    ((extractRelationships xsdBasePath fs xsdFilePaths).map Prod.fst).Nodup := by
  constructor
  · intro k rel hmem
    unfold extractRelationships extractRelationshipsDocs at hmem
    have := @mapSetFold_invariant _ (fun k v => v.id = k)
      ((relationshipList xsdBasePath (loadModuleDocs fs xsdFilePaths)).map
        (fun r => (r.id, r))) [] (by simp) ?_ (k, rel) hmem
    · exact this
    · intro p hp
      rw [List.mem_map] at hp
      obtain ⟨r, _, hr⟩ := hp
      rw [← hr]
  · unfold extractRelationships extractRelationshipsDocs
    exact keys_mapSetFold _ _ (by simp)

/-- Witness for C10 on the one-extension sample schema. -/
theorem relationship_map_key_eq_id_witness :
    wallGenRel.id = "generalization_Wall_AbstractBuildingSubdivision" ∧
    ((extractRelationships "base" relSampleFs ["bldg.xsd"]).map Prod.fst).Nodup :=
  ⟨(relationship_map_key_eq_id "base" relSampleFs ["bldg.xsd"]).1
      "generalization_Wall_AbstractBuildingSubdivision" wallGenRel (by decide),
    (relationship_map_key_eq_id "base" relSampleFs ["bldg.xsd"]).2⟩

/-- C5: the relationship map never contains two entries whose
(kind, source, target, role) tuples agree while their ids differ — every
stored id is the same pure function of that tuple. -/
theorem relationship_id_functional (xsdBasePath : String) (fs : FileSystem)
    (xsdFilePaths : List String) (k₁ k₂ : String) (r₁ r₂ : RelationshipInfo)
    (h₁ : (k₁, r₁) ∈ extractRelationships xsdBasePath fs xsdFilePaths)
    (h₂ : (k₂, r₂) ∈ extractRelationships xsdBasePath fs xsdFilePaths)
    (ht : r₁.type = r₂.type) (hs : r₁.source = r₂.source)
    (htg : r₁.target = r₂.target) (hro : r₁.targetRole = r₂.targetRole) :
    r₁.id = r₂.id := by
  have hin : ∀ k r, (k, r) ∈ extractRelationships xsdBasePath fs xsdFilePaths →
      r ∈ relationshipList xsdBasePath (loadModuleDocs fs xsdFilePaths) := by
    intro k r hmem
    unfold extractRelationships extractRelationshipsDocs at hmem
    rcases mem_mapSetFold hmem with h | h
    · exact absurd h (List.not_mem_nil _)
    · rw [List.mem_map] at h
      obtain ⟨r', hr', he⟩ := h
      have : r' = r := congrArg Prod.snd he
      rw [← this]
      exact hr'
  have e₁ : r₁.id = relIdOf r₁ := relationshipList_id _ _ _ (hin k₁ r₁ h₁)
  have e₂ : r₂.id = relIdOf r₂ := relationshipList_id _ _ _ (hin k₂ r₂ h₂)
  rw [e₁, e₂]
  unfold relIdOf
  rw [ht, hs, htg, hro]

/-- Witness for C5 at the sample generalization entry. -/
theorem relationship_id_functional_witness : wallGenRel.id = wallGenRel.id :=
  relationship_id_functional "base" relSampleFs ["bldg.xsd"]
    "generalization_Wall_AbstractBuildingSubdivision"
    "generalization_Wall_AbstractBuildingSubdivision" wallGenRel wallGenRel
    (by decide) (by decide) rfl rfl rfl rfl

/-! ## Concept extractor: codelist vs enumeration classification -/

theorem mem_codelistNames (doc : XNode) (n : String) :
    n ∈ (extractCodelists doc).map (fun c => c.name) ↔
      ∃ st ∈ selectAll doc "xs:simpleType",
        (selectBelow st "xs:enumeration").isEmpty = false ∧
        st.getAttr "name" = n ∧ n ≠ "" ∧ jsEndsWith n "EnumBase" = false := by
  unfold extractCodelists
  simp only [List.mem_map, List.mem_filterMap, List.mem_filter, Bool.not_eq_true']
  constructor
  · rintro ⟨cl, ⟨st, ⟨hsel, hemp⟩, hf⟩, hname⟩
    split at hf
    case isTrue hcond =>
      obtain rfl := (Option.some.injEq _ _).mp hf
      rw [Bool.and_eq_true, Bool.not_eq_true'] at hcond
      refine ⟨st, hsel, hemp, hname, ?_, ?_⟩
      · rw [← hname]
        have := hcond.1
        unfold jsTruthy at this
        exact of_decide_eq_true this
      · rw [← hname]
        exact hcond.2
    case isFalse => exact absurd hf (by simp)
  · rintro ⟨st, hsel, hemp, hattr, hne, hends⟩
    have hcond : (jsTruthy (st.getAttr "name") &&
        !(jsEndsWith (st.getAttr "name") "EnumBase")) = true := by
      rw [hattr, Bool.and_eq_true, Bool.not_eq_true']
      exact ⟨decide_eq_true hne, hends⟩
    refine ⟨CodelistInfo.mk (st.getAttr "name") (extractDocText st)
        ((selectBelow st "xs:enumeration").map (fun v =>
          CodeValue.mk (jsOr (v.getAttr "value") "") (extractDocText v))),
      ⟨st, ⟨hsel, hemp⟩, ?_⟩, hattr⟩
    rw [if_pos hcond]

theorem mem_enumerationNames (doc : XNode) (n : String) :
    n ∈ (extractEnumerations doc).map (fun e => e.name) ↔
      ∃ st ∈ selectAll doc "xs:simpleType",
        (selectBelow st "xs:enumeration").isEmpty = false ∧
        st.getAttr "name" = n ∧ jsIncludes n "EnumBase" = true := by
  unfold extractEnumerations
  simp only [List.mem_map, List.mem_filterMap, List.mem_filter, Bool.and_eq_true,
    Bool.not_eq_true']
  constructor
  · rintro ⟨en, ⟨st, ⟨hsel, hemp, hinc⟩, hf⟩, hname⟩
    split at hf
    case isTrue hcond =>
      obtain rfl := (Option.some.injEq _ _).mp hf
      exact ⟨st, hsel, hemp, hname, by rw [← hname]; exact hinc⟩
    case isFalse => exact absurd hf (by simp)
  · rintro ⟨st, hsel, hemp, hattr, hinc⟩
    have htr : jsTruthy (st.getAttr "name") = true := by
      rw [hattr]
      unfold jsTruthy
      refine decide_eq_true ?_
      intro hcontra
      rw [hcontra] at hinc
      exact absurd hinc (by decide)
    refine ⟨EnumerationInfo.mk (st.getAttr "name") (extractDocText st)
        ((selectBelow st "xs:enumeration").map (fun v =>
          EnumValue.mk (jsOr (v.getAttr "value") "") (extractDocText v))),
      ⟨st, ⟨hsel, hemp, by rw [hattr]; exact hinc⟩, ?_⟩, hattr⟩
    rw [if_pos htr]

/-- C6 counterexample: a simpleType named `AEnumBaseX` (containing the
reserved marker without ending in it) with an enumeration facet is
returned by both `extractCodelists` and `extractEnumerations`, so the two
categories are not disjoint and the enumeration side is not an
ends-with test. -/
theorem codelist_enumeration_overlap :
    ((extractCodelists overlapSimpleTypeDoc).map (fun c => c.name)).contains
      "AEnumBaseX" = true ∧
    ((extractEnumerations overlapSimpleTypeDoc).map (fun e => e.name)).contains
      "AEnumBaseX" = true ∧
    jsEndsWith "AEnumBaseX" "EnumBase" = false :=
  ⟨by decide, by decide, by decide⟩

/-- C6 amended: for every named simpleType with at least one enumeration
facet, it is classified codelist iff its name does not end in `EnumBase`,
and enumeration iff its name contains `EnumBase`; the two lists together
cover all such simpleTypes but overlap exactly when the name contains the
marker without ending in it. -/
theorem simpleType_classification (doc : XNode) (n : String) :
    (((extractCodelists doc).map (fun c => c.name)).contains n = true ↔
      ∃ st ∈ selectAll doc "xs:simpleType",
        (selectBelow st "xs:enumeration").isEmpty = false ∧
        st.getAttr "name" = n ∧ n ≠ "" ∧ jsEndsWith n "EnumBase" = false) ∧
    (((extractEnumerations doc).map (fun e => e.name)).contains n = true ↔
      ∃ st ∈ selectAll doc "xs:simpleType",
        (selectBelow st "xs:enumeration").isEmpty = false ∧
        st.getAttr "name" = n ∧ jsIncludes n "EnumBase" = true) :=
  ⟨(contains_iff_mem _ _).trans (mem_codelistNames doc n),
    (contains_iff_mem _ _).trans (mem_enumerationNames doc n)⟩
